import Mathlib

/-!
# Verification of the Beam Python coder framework (`coders.py`)

A shallow embedding of `sdks/python/apache_beam/coders/coders.py`.

Concrete coder classes become constructors of the inductive `PyCoder`;
each Python method that dispatches on the concrete class becomes a Lean
function matching on the constructor.  Byte strings and text are
`List Nat` (byte / code-point values).  The object-serialization
capability (the `pickler` module, `cPickle`/`dill`) is not part of the
repository sources, so functions that consume it take the `dumps`/`loads`
functions as explicit parameters.
-/

/-- The concrete coder classes of `coders.py`.

* `SingletonCoder` stores a value; we model the stored value by a `Nat`
  token (its identity is only ever compared / hashed).
* `ProtoCoder` stores a protobuf message type; modelled by a `Nat` token.
* `WindowedValueCoder` stores `wrapped_value_coder` and `window_coder`;
  its `timestamp_coder` attribute is always `TimestampCoder()` and is
  therefore left implicit.
* `GlobalWindowCoder` is the `SingletonCoder` subclass holding the global
  window value. -/
inductive PyCoder : Type where
  | strUtf8 : PyCoder
  | toStr : PyCoder
  | bytesC : PyCoder
  | varInt : PyCoder
  | floatC : PyCoder
  | timestampC : PyCoder
  | singleton (value : Nat) : PyCoder
  | pickleC : PyCoder
  | dillC : PyCoder
  | deterministicFastPrimitives (underlying : PyCoder) (stepLabel : List Nat) : PyCoder
  | fastPrimitives (fallback : PyCoder) : PyCoder
  | base64Pickle : PyCoder
  | protoC (msgType : Nat) : PyCoder
  | tupleC (components : List PyCoder) : PyCoder
  | tupleSequence (elem : PyCoder) : PyCoder
  | iterableC (elem : PyCoder) : PyCoder
  | globalWindow : PyCoder
  | intervalWindow : PyCoder
  | windowedValue (wrapped : PyCoder) (window : PyCoder) : PyCoder
  | lengthPrefixed (valueCoder : PyCoder) : PyCoder

namespace PyCoder

/-- `is_deterministic`, per concrete class.  The base `Coder` default is
`False`; each class listed overrides it exactly as in the source.
`WindowedValueCoder.is_deterministic` folds over
`[wrapped_value_coder, timestamp_coder, window_coder]`; the timestamp
coder is always the (deterministic) `TimestampCoder`. -/
def is_deterministic : PyCoder → Bool
  | strUtf8 => true
  | toStr => true
  | bytesC => true
  | varInt => true
  | floatC => true
  | timestampC => true
  | singleton _ => true
  | pickleC => false
  | dillC => false
  | deterministicFastPrimitives _ _ => true
  | fastPrimitives fb => is_deterministic fb
  | base64Pickle => false
  | protoC _ => false
  | tupleC cs => allDeterministic cs
  | tupleSequence e => is_deterministic e
  | iterableC e => is_deterministic e
  | globalWindow => true
  | intervalWindow => true
  | windowedValue w win =>
      -- the middle conjunct is `timestamp_coder.is_deterministic()`, and
      -- `timestamp_coder` is always `TimestampCoder()`, whose
      -- `is_deterministic` is `True`
      is_deterministic w && (true && is_deterministic win)
  | lengthPrefixed v => is_deterministic v
where
  /-- `all(c.is_deterministic() for c in self._coders)`. -/
  allDeterministic : List PyCoder → Bool
    | [] => true
    | c :: rest => is_deterministic c && allDeterministic rest

/-- `is_kv_coder`, per concrete class; default `False`. -/
def is_kv_coder : PyCoder → Bool
  | pickleC => true
  | dillC => true
  | deterministicFastPrimitives _ _ => true
  | fastPrimitives _ => true
  | base64Pickle => true
  | tupleC cs => cs.length == 2
  | windowedValue w _ => is_kv_coder w
  | _ => false

/-- The exceptions a `key_coder`/`value_coder` accessor can raise. -/
inductive KvError : Type where
  | notAKvCoder : KvError
  | notImplemented : KvError
  | wrongArity : KvError
  deriving DecidableEq, Repr

/-- `key_coder`.  The base `Coder` raises `NotImplementedError` when
`is_kv_coder()` is true and `ValueError` otherwise; `TupleCoder` raises
`ValueError` unless it has exactly two components; the pickle-family
coders return `self`; `WindowedValueCoder` delegates to the wrapped
value coder. -/
def key_coder : PyCoder → Except KvError PyCoder
  | pickleC => .ok pickleC
  | dillC => .ok dillC
  | deterministicFastPrimitives u s => .ok (deterministicFastPrimitives u s)
  | fastPrimitives fb => .ok (fastPrimitives fb)
  | base64Pickle => .ok base64Pickle
  | tupleC cs =>
      if h : cs.length = 2 then .ok (cs.get ⟨0, by omega⟩) else .error .wrongArity
  | windowedValue w _ => key_coder w
  | c => if is_kv_coder c then .error .notImplemented else .error .notAKvCoder

/-- `value_coder`.  Like `key_coder`, with the additional overrides on
`IterableCoder` and `LengthPrefixCoder` that return the element /
wrapped coder. -/
def value_coder : PyCoder → Except KvError PyCoder
  | pickleC => .ok pickleC
  | dillC => .ok dillC
  | deterministicFastPrimitives u s => .ok (deterministicFastPrimitives u s)
  | fastPrimitives fb => .ok (fastPrimitives fb)
  | base64Pickle => .ok base64Pickle
  | tupleC cs =>
      if h : cs.length = 2 then .ok (cs.get ⟨1, by omega⟩) else .error .wrongArity
  | windowedValue w _ => value_coder w
  | iterableC e => .ok e
  | lengthPrefixed v => .ok v
  | c => if is_kv_coder c then .error .notImplemented else .error .notAKvCoder

/-- `_get_component_coders`, per concrete class; default `[]`.
`WindowedValueCoder._get_component_coders` returns
`[wrapped_value_coder, window_coder]` (not the timestamp coder). -/
def componentCoders : PyCoder → List PyCoder
  | tupleC cs => cs
  | tupleSequence e => [e]
  | iterableC e => [e]
  | windowedValue w win => [w, win]
  | lengthPrefixed v => [v]
  | _ => []

/-- Python `==` between two coders, following each class's `__eq__`.

* The base `Coder.__eq__` compares the concrete class and the attribute
  dictionaries (without the cached `_impl`); classes with no attributes
  therefore compare by class alone.
* `BytesCoder`, `VarIntCoder`, `FloatCoder`, `TimestampCoder`,
  `IntervalWindowCoder`, `_PickleCoderBase` and `FastPrimitivesCoder`
  override `__eq__` as `type(self) == type(other)` — note that
  `FastPrimitivesCoder` thereby ignores its `_fallback_coder` attribute.
* `TupleCoder.__eq__`, `TupleSequenceCoder.__eq__` and
  `IterableCoder.__eq__` compare `self`'s components *with themselves*
  (`self._coders == self._coders`, `self._elem_coder == self._elem_coder`),
  which CPython evaluates to `True` by its identity short-circuit, so the
  comparison degenerates to `type(self) == type(other)`.
* `SingletonCoder` also compares the stored value, `ProtoCoder` the
  message type, `WindowedValueCoder` and `LengthPrefixCoder` recurse into
  their (actual other-side) components.  `WindowedValueCoder` also
  compares the `timestamp_coder` fields, which are always equal
  (`TimestampCoder() == TimestampCoder()`). -/
def coderEq : PyCoder → PyCoder → Bool
  | strUtf8, strUtf8 => true
  | toStr, toStr => true
  | bytesC, bytesC => true
  | varInt, varInt => true
  | floatC, floatC => true
  | timestampC, timestampC => true
  | singleton v, singleton w => v == w
  | pickleC, pickleC => true
  | dillC, dillC => true
  | deterministicFastPrimitives u s, deterministicFastPrimitives u' s' =>
      coderEq u u' && s == s'
  | fastPrimitives _, fastPrimitives _ => true
  | base64Pickle, base64Pickle => true
  | protoC m, protoC m' => m == m'
  | tupleC _, tupleC _ => true
  | tupleSequence _, tupleSequence _ => true
  | iterableC _, iterableC _ => true
  | globalWindow, globalWindow => true
  | intervalWindow, intervalWindow => true
  | windowedValue w win, windowedValue w' win' => coderEq w w' && coderEq win win'
  | lengthPrefixed v, lengthPrefixed v' => coderEq v v'
  | _, _ => false

/-- A distinct token per concrete class, standing for CPython's
`hash(type(self))` (distinct classes hash distinctly). -/
def typeTag : PyCoder → Nat
  | strUtf8 => 0
  | toStr => 1
  | bytesC => 2
  | varInt => 3
  | floatC => 4
  | timestampC => 5
  | singleton _ => 6
  | pickleC => 7
  | dillC => 8
  | deterministicFastPrimitives _ _ => 9
  | fastPrimitives _ => 10
  | base64Pickle => 11
  | protoC _ => 12
  | tupleC _ => 13
  | tupleSequence _ => 14
  | iterableC _ => 15
  | globalWindow => 16
  | intervalWindow => 17
  | windowedValue _ _ => 18
  | lengthPrefixed _ => 19

/-- A stand-in for CPython's deterministic combination of the element
hashes of a tuple: any function injective enough to separate the concrete
inputs we evaluate it at. -/
def combineHashes (l : List Nat) : Nat :=
  l.foldl (fun a h => a * 1000003 + h + 1) 5381

/-- Python `hash()` of a coder.  `some n` when the class defines
`__hash__` so the hash is a function of the coder's attributes; `none`
when the class inherits `object.__hash__` (identity-based, not a function
of the structure): the base `Coder` defines `__eq__` but no `__hash__`,
so `StrUtf8Coder`, `ToStringCoder`, `Base64PickleCoder` and
`DeterministicFastPrimitivesCoder` hash by object identity.  A composite
whose component hashes by identity itself hashes by identity-dependent
data, hence also `none`. -/
def coderHash : PyCoder → Option Nat
  | strUtf8 => none
  | toStr => none
  | bytesC => some (combineHashes [typeTag bytesC])
  | varInt => some (combineHashes [typeTag varInt])
  | floatC => some (combineHashes [typeTag floatC])
  | timestampC => some (combineHashes [typeTag timestampC])
  | singleton v => some v
  | pickleC => some (combineHashes [typeTag pickleC])
  | dillC => some (combineHashes [typeTag dillC])
  | deterministicFastPrimitives _ _ => none
  | fastPrimitives _ => some (combineHashes [typeTag (fastPrimitives bytesC)])
  | base64Pickle => none
  | protoC m => some m
  | tupleC cs => (hashList cs).map combineHashes
  | tupleSequence e =>
      (coderHash e).map fun h => combineHashes [typeTag (tupleSequence e), h]
  | iterableC e =>
      (coderHash e).map fun h => combineHashes [typeTag (iterableC e), h]
  | globalWindow => some 0
  | intervalWindow => some (combineHashes [typeTag intervalWindow])
  | windowedValue w win =>
      match coderHash w, coderHash win with
      | some hw, some hwin =>
          some (combineHashes [hw, combineHashes [typeTag timestampC], hwin])
      | _, _ => none
  | lengthPrefixed v =>
      (coderHash v).map fun h => combineHashes [typeTag (lengthPrefixed v), h]
where
  /-- The element hashes of `hash(self._coders)`, `none` as soon as one
  element hashes by identity. -/
  hashList : List PyCoder → Option (List Nat)
    | [] => some []
    | c :: rest =>
        match coderHash c, hashList rest with
        | some h, some hs => some (h :: hs)
        | _, _ => none

/-- `self.__class__.__name__` for each concrete class. -/
def className : PyCoder → List Char
  | strUtf8 => "StrUtf8Coder".toList
  | toStr => "ToStringCoder".toList
  | bytesC => "BytesCoder".toList
  | varInt => "VarIntCoder".toList
  | floatC => "FloatCoder".toList
  | timestampC => "TimestampCoder".toList
  | singleton _ => "SingletonCoder".toList
  | pickleC => "PickleCoder".toList
  | dillC => "DillCoder".toList
  | deterministicFastPrimitives _ _ => "DeterministicFastPrimitivesCoder".toList
  | fastPrimitives _ => "FastPrimitivesCoder".toList
  | base64Pickle => "Base64PickleCoder".toList
  | protoC _ => "ProtoCoder".toList
  | tupleC _ => "TupleCoder".toList
  | tupleSequence _ => "TupleSequenceCoder".toList
  | iterableC _ => "IterableCoder".toList
  | globalWindow => "GlobalWindowCoder".toList
  | intervalWindow => "IntervalWindowCoder".toList
  | windowedValue _ _ => "WindowedValueCoder".toList
  | lengthPrefixed _ => "LengthPrefixCoder".toList

end PyCoder

/-- `'%s$%s' % (coder.__class__.__name__, pickler.dumps(coder))`.
The object-serialization capability `pickler.dumps` is passed in. -/
def serialize_coder (dumps : PyCoder → List Char) (c : PyCoder) : List Char :=
  c.className ++ '$' :: dumps c

/-- `s.split(sep, 1)[1]`: everything after the first occurrence of `sep`,
or `none` (Python: `IndexError`) when `sep` does not occur. -/
def afterFirst (sep : Char) : List Char → Option (List Char)
  | [] => none
  | c :: rest => if c = sep then some rest else afterFirst sep rest

/-- How `deserialize_coder` can fail: `IndexError` from
`split('$', 1)[1]` when there is no `'$'`, or the pickler's own error
when the blob does not unpickle. -/
inductive DeserializeFailure : Type where
  | indexError : DeserializeFailure
  | picklerError : DeserializeFailure
  deriving DecidableEq

/-- `pickler.loads(serialized.split('$', 1)[1])`.  The part before the
first `'$'` (the kind name) is dropped without inspection. -/
def deserialize_coder (loads : List Char → Option PyCoder) (s : List Char) :
    Except DeserializeFailure PyCoder :=
  match afterFirst '$' s with
  | none => .error .indexError
  | some blob =>
      match loads blob with
      | none => .error .picklerError
      | some c => .ok c

/-- The JSON-like document returned by `as_cloud_object`.  A key the
code never writes is modelled by `false` for the flags and `[]` for
`component_encodings`. -/
structure CloudObject : Type where
  atType : List Char
  is_pair_like : Bool
  is_stream_like : Bool
  is_wrapper : Bool
  component_encodings : List CloudObject

namespace PyCoder

/-- `as_cloud_object`, following each class's override.

* default (`Coder.as_cloud_object`): `@type` is `serialize_coder(self)`,
  `component_encodings` maps over `_get_component_coders()`.  This is
  what `StrUtf8Coder`, `ToStringCoder`, the primitive coders,
  `SingletonCoder`, `DeterministicFastPrimitivesCoder`,
  `Base64PickleCoder`, `ProtoCoder` and `TupleSequenceCoder` use.
* `_PickleCoderBase` / `FastPrimitivesCoder`: the default document plus
  `is_pair_like: true` and two copies of the un-hacked document as
  components.
* `TupleCoder`: `kind:pair` with `is_pair_like` when `is_kv_coder()`,
  otherwise the default document.
* `IterableCoder`: `kind:stream`, `is_stream_like`, one component.
* `GlobalWindowCoder` / `IntervalWindowCoder`: fixed tags, no
  components.
* `WindowedValueCoder`: `kind:windowed_value`, `is_wrapper`, components
  `[wrapped_value_coder, window_coder]`.
* `LengthPrefixCoder`: `kind:length_prefix`, one component. -/
def as_cloud_object (dumps : PyCoder → List Char) : PyCoder → CloudObject
  | strUtf8 => ⟨serialize_coder dumps strUtf8, false, false, false, []⟩
  | toStr => ⟨serialize_coder dumps toStr, false, false, false, []⟩
  | bytesC => ⟨serialize_coder dumps bytesC, false, false, false, []⟩
  | varInt => ⟨serialize_coder dumps varInt, false, false, false, []⟩
  | floatC => ⟨serialize_coder dumps floatC, false, false, false, []⟩
  | timestampC => ⟨serialize_coder dumps timestampC, false, false, false, []⟩
  | singleton v => ⟨serialize_coder dumps (singleton v), false, false, false, []⟩
  | pickleC =>
      let base : CloudObject := ⟨serialize_coder dumps pickleC, false, false, false, []⟩
      ⟨base.atType, true, false, false, [base, base]⟩
  | dillC =>
      let base : CloudObject := ⟨serialize_coder dumps dillC, false, false, false, []⟩
      ⟨base.atType, true, false, false, [base, base]⟩
  | deterministicFastPrimitives u s =>
      ⟨serialize_coder dumps (deterministicFastPrimitives u s), false, false, false, []⟩
  | fastPrimitives fb =>
      let base : CloudObject :=
        ⟨serialize_coder dumps (fastPrimitives fb), false, false, false, []⟩
      ⟨base.atType, true, false, false, [base, base]⟩
  | base64Pickle => ⟨serialize_coder dumps base64Pickle, false, false, false, []⟩
  | protoC m => ⟨serialize_coder dumps (protoC m), false, false, false, []⟩
  | tupleC cs =>
      if cs.length = 2 then
        ⟨"kind:pair".toList, true, false, false, cloudList dumps cs⟩
      else
        ⟨serialize_coder dumps (tupleC cs), false, false, false, cloudList dumps cs⟩
  | tupleSequence e =>
      ⟨serialize_coder dumps (tupleSequence e), false, false, false,
        [as_cloud_object dumps e]⟩
  | iterableC e =>
      ⟨"kind:stream".toList, false, true, false, [as_cloud_object dumps e]⟩
  | globalWindow => ⟨"kind:global_window".toList, false, false, false, []⟩
  | intervalWindow => ⟨"kind:interval_window".toList, false, false, false, []⟩
  | windowedValue w win =>
      ⟨"kind:windowed_value".toList, false, false, true,
        [as_cloud_object dumps w, as_cloud_object dumps win]⟩
  | lengthPrefixed v =>
      ⟨"kind:length_prefix".toList, false, false, false, [as_cloud_object dumps v]⟩
where
  /-- `[component.as_cloud_object() for component in components]`. -/
  cloudList (dumps : PyCoder → List Char) : List PyCoder → List CloudObject
    | [] => []
    | c :: rest => as_cloud_object dumps c :: cloudList dumps rest

end PyCoder

/-- Modelled from the spec: the byte-codec capability's
`varint_size(int) -> int` (`get_varint_size` imported from the stream
module, which is not among the sources): the number of 7-bit groups in
the variable-length encoding of a non-negative integer. -/
def get_varint_size (n : Nat) : Nat :=
  if h : n < 128 then 1 else 1 + get_varint_size (n / 128)
decreasing_by exact Nat.div_lt_self (by omega) (by omega)

/-- `estimate_size` over an opaque value type `α`.  Delegating coders
forward to the implementation handle, which lives in the `coder_impl`
module (not among the sources); `impl` supplies those results.
`LengthPrefixCoder.estimate_size` is defined in the sources:
`get_varint_size(value_size) + value_size` where
`value_size = self._value_coder.estimate_size(value)`. -/
def estimate_size {α : Type} (impl : PyCoder → α → Nat) :
    PyCoder → α → Nat
  | .lengthPrefixed inner, v =>
      let value_size := estimate_size impl inner v
      get_varint_size value_size + value_size
  | c, v => impl c v

/-! ## UTF-8 (the `'utf-8'` codec used by `StrUtf8Coder`)

Text is a list of code points, bytes a list of values `< 256`. -/

/-- The UTF-8 encoding of one code point. -/
def utf8EncodeChar (n : Nat) : List Nat :=
  if n < 128 then [n]
  else if n < 2048 then [192 + n / 64, 128 + n % 64]
  else if n < 65536 then [224 + n / 4096, 128 + n / 64 % 64, 128 + n % 64]
  else [240 + n / 262144, 128 + n / 4096 % 64, 128 + n / 64 % 64, 128 + n % 64]

/-- `value.encode('utf-8')`: concatenation of the per-code-point
encodings. -/
def utf8Encode : List Nat → List Nat
  | [] => []
  | n :: rest => utf8EncodeChar n ++ utf8Encode rest

/-- One step of `value.decode('utf-8')`: given the leading byte and the
remaining bytes, parse the continuation bytes of one multi-byte
sequence, returning the code point and the unconsumed remainder; `none`
on a malformed leading byte, truncated sequence, or bad continuation
byte. -/
def utf8Step (b : Nat) (rest : List Nat) : Option (Nat × List Nat) :=
  if b < 128 then some (b, rest)
  else if 194 ≤ b ∧ b < 224 then
    match rest with
    | b2 :: rest2 =>
        if 128 ≤ b2 ∧ b2 < 192 then
          some ((b - 192) * 64 + (b2 - 128), rest2)
        else none
    | [] => none
  else if 224 ≤ b ∧ b < 240 then
    match rest with
    | b2 :: b3 :: rest3 =>
        if (128 ≤ b2 ∧ b2 < 192) ∧ (128 ≤ b3 ∧ b3 < 192) then
          some ((b - 224) * 4096 + (b2 - 128) * 64 + (b3 - 128), rest3)
        else none
    | _ => none
  else if 240 ≤ b ∧ b < 245 then
    match rest with
    | b2 :: b3 :: b4 :: rest4 =>
        if (128 ≤ b2 ∧ b2 < 192) ∧ (128 ≤ b3 ∧ b3 < 192) ∧
            (128 ≤ b4 ∧ b4 < 192) then
          some ((b - 240) * 262144 + (b2 - 128) * 4096 + (b3 - 128) * 64 +
            (b4 - 128), rest4)
        else none
    | _ => none
  else none

/-- `utf8Step` iterated; the fuel only bounds the number of code points,
each of which consumes at least one byte. -/
def utf8DecodeFuel : Nat → List Nat → Option (List Nat)
  | _, [] => some []
  | 0, _ :: _ => none
  | fuel + 1, b :: rest =>
      (utf8Step b rest).bind fun p =>
        (utf8DecodeFuel fuel p.2).map fun r => p.1 :: r

/-- `value.decode('utf-8')`: every step consumes at least one byte, so
the input length is always enough fuel. -/
def utf8Decode (bs : List Nat) : Option (List Nat) :=
  utf8DecodeFuel bs.length bs

namespace StrUtf8Coder

/-- `StrUtf8Coder.encode`: `value.encode('utf-8')`. -/
def encode (value : List Nat) : List Nat := utf8Encode value

/-- `StrUtf8Coder.decode`: `value.decode('utf-8')`. -/
def decode (value : List Nat) : Option (List Nat) := utf8Decode value

end StrUtf8Coder

/-! ## Base64 (the `base64` module used by `Base64PickleCoder`) -/

/-- The base64 alphabet: 6-bit group to ASCII byte. -/
def b64chr (n : Nat) : Nat :=
  if n < 26 then 65 + n
  else if n < 52 then 97 + (n - 26)
  else if n < 62 then 48 + (n - 52)
  else if n = 62 then 43
  else 47

/-- ASCII byte back to 6-bit group; `none` outside the alphabet. -/
def b64val (c : Nat) : Option Nat :=
  if 65 ≤ c ∧ c ≤ 90 then some (c - 65)
  else if 97 ≤ c ∧ c ≤ 122 then some (c - 97 + 26)
  else if 48 ≤ c ∧ c ≤ 57 then some (c - 48 + 52)
  else if c = 43 then some 62
  else if c = 47 then some 63
  else none

/-- `base64.b64encode`: three bytes to four alphabet bytes, with `'='`
(61) padding a final group of one or two bytes. -/
def b64encode : List Nat → List Nat
  | b1 :: b2 :: b3 :: rest =>
      b64chr (b1 / 4) :: b64chr (b1 % 4 * 16 + b2 / 16) ::
        b64chr (b2 % 16 * 4 + b3 / 64) :: b64chr (b3 % 64) :: b64encode rest
  | [b1, b2] =>
      [b64chr (b1 / 4), b64chr (b1 % 4 * 16 + b2 / 16), b64chr (b2 % 16 * 4), 61]
  | [b1] => [b64chr (b1 / 4), b64chr (b1 % 4 * 16), 61, 61]
  | [] => []

/-- `base64.b64decode`: four alphabet bytes back to three bytes; a
padded final group yields one or two bytes. -/
def b64decode : List Nat → Option (List Nat)
  | [] => some []
  | c1 :: c2 :: c3 :: c4 :: rest =>
      (b64val c1).bind fun v1 =>
      (b64val c2).bind fun v2 =>
      if c3 = 61 then
        if c4 = 61 ∧ rest = [] then some [v1 * 4 + v2 / 16] else none
      else
        (b64val c3).bind fun v3 =>
        if c4 = 61 then
          if rest = [] then
            some [v1 * 4 + v2 / 16, v2 % 16 * 16 + v3 / 4]
          else none
        else
          (b64val c4).bind fun v4 =>
          (b64decode rest).map fun r =>
            (v1 * 4 + v2 / 16) :: (v2 % 16 * 16 + v3 / 4) ::
              (v3 % 4 * 64 + v4) :: r
  | _ => none

namespace Base64PickleCoder

/-- `Base64PickleCoder.encode`: `base64.b64encode(pickle.dumps(value))`,
with the object-serialization capability `pickle.dumps` passed in. -/
def encode {α : Type} (dumps : α → List Nat) (value : α) : List Nat :=
  b64encode (dumps value)

/-- `Base64PickleCoder.decode`:
`pickle.loads(base64.b64decode(encoded))`. -/
def decode {α : Type} (loads : List Nat → Option α) (encoded : List Nat) :
    Option α :=
  (b64decode encoded).bind loads

end Base64PickleCoder

/-- The composite kinds named by the determinism-propagation property:
tuple, homogeneous sequence, iterable, windowed value. -/
def PyCoder.isCompositeCoder : PyCoder → Bool
  | .tupleC _ => true
  | .tupleSequence _ => true
  | .iterableC _ => true
  | .windowedValue _ _ => true
  | _ => false

/-! ## Codec round-trip lemmas -/

theorem b64val_b64chr : ∀ n < 64, b64val (b64chr n) = some n := by decide

theorem b64chr_ne_61 : ∀ n < 64, b64chr n ≠ 61 := by decide

/-- Base64 decoding inverts base64 encoding on byte strings. -/
theorem b64decode_b64encode :
    ∀ bs : List Nat, (∀ b ∈ bs, b < 256) → b64decode (b64encode bs) = some bs
  | [], _ => rfl
  | [b1], h => by
      have hb1 : b1 < 256 := h b1 (by simp)
      have e1 : b64val (b64chr (b1 / 4)) = some (b1 / 4) :=
        b64val_b64chr _ (by omega)
      have e2 : b64val (b64chr (b1 % 4 * 16)) = some (b1 % 4 * 16) :=
        b64val_b64chr _ (by omega)
      simp [b64encode, b64decode, e1, e2]
      omega
  | [b1, b2], h => by
      have hb1 : b1 < 256 := h b1 (by simp)
      have hb2 : b2 < 256 := h b2 (by simp)
      have e1 : b64val (b64chr (b1 / 4)) = some (b1 / 4) :=
        b64val_b64chr _ (by omega)
      have e2 : b64val (b64chr (b1 % 4 * 16 + b2 / 16)) =
          some (b1 % 4 * 16 + b2 / 16) := b64val_b64chr _ (by omega)
      have n3 : b64chr (b2 % 16 * 4) ≠ 61 := b64chr_ne_61 _ (by omega)
      have e3 : b64val (b64chr (b2 % 16 * 4)) = some (b2 % 16 * 4) :=
        b64val_b64chr _ (by omega)
      simp [b64encode, b64decode, e1, e2, e3, n3]
      constructor
      · omega
      · omega
  | b1 :: b2 :: b3 :: rest, h => by
      have hb1 : b1 < 256 := h b1 (by simp)
      have hb2 : b2 < 256 := h b2 (by simp)
      have hb3 : b3 < 256 := h b3 (by simp)
      have ih := b64decode_b64encode rest (fun b hb => h b (by simp [hb]))
      have e1 : b64val (b64chr (b1 / 4)) = some (b1 / 4) :=
        b64val_b64chr _ (by omega)
      have e2 : b64val (b64chr (b1 % 4 * 16 + b2 / 16)) =
          some (b1 % 4 * 16 + b2 / 16) := b64val_b64chr _ (by omega)
      have e3 : b64val (b64chr (b2 % 16 * 4 + b3 / 64)) =
          some (b2 % 16 * 4 + b3 / 64) := b64val_b64chr _ (by omega)
      have e4 : b64val (b64chr (b3 % 64)) = some (b3 % 64) :=
        b64val_b64chr _ (by omega)
      have n3 : b64chr (b2 % 16 * 4 + b3 / 64) ≠ 61 := b64chr_ne_61 _ (by omega)
      have n4 : b64chr (b3 % 64) ≠ 61 := b64chr_ne_61 _ (by omega)
      have hv1 : b1 / 4 * 4 + (b1 % 4 * 16 + b2 / 16) / 16 = b1 := by omega
      have hv2 : (b1 % 4 * 16 + b2 / 16) % 16 * 16 +
          (b2 % 16 * 4 + b3 / 64) / 4 = b2 := by omega
      have hv3 : (b2 % 16 * 4 + b3 / 64) % 4 * 64 + b3 % 64 = b3 := by omega
      simp [b64encode, b64decode, e1, e2, e3, e4, n3, n4, hv1, hv2, hv3, ih]

/-- `utf8Step` consumes exactly the UTF-8 encoding of one code point. -/
theorem utf8Step_encodeChar (n : Nat) (hn : n < 1114112) (rest : List Nat) :
    ∃ b tail, utf8EncodeChar n ++ rest = b :: tail ∧
      utf8Step b tail = some (n, rest) := by
  by_cases h1 : n < 128
  · refine ⟨n, rest, by simp [utf8EncodeChar, h1], ?_⟩
    simp [utf8Step, h1]
  · by_cases h2 : n < 2048
    · refine ⟨192 + n / 64, (128 + n % 64) :: rest,
        by simp [utf8EncodeChar, h1, h2], ?_⟩
      have c1 : ¬(192 + n / 64 < 128) := by omega
      have c2 : 194 ≤ 192 + n / 64 ∧ 192 + n / 64 < 224 := by omega
      have c3 : 128 ≤ 128 + n % 64 ∧ 128 + n % 64 < 192 := by omega
      simp [utf8Step, c1, c2, c3]
      omega
    · by_cases h3 : n < 65536
      · refine ⟨224 + n / 4096, (128 + n / 64 % 64) :: (128 + n % 64) :: rest,
          by simp [utf8EncodeChar, h1, h2, h3], ?_⟩
        have c1 : ¬(224 + n / 4096 < 128) := by omega
        have c2 : ¬(194 ≤ 224 + n / 4096 ∧ 224 + n / 4096 < 224) := by omega
        have c3 : 224 ≤ 224 + n / 4096 ∧ 224 + n / 4096 < 240 := by omega
        have c4 : (128 ≤ 128 + n / 64 % 64 ∧ 128 + n / 64 % 64 < 192) ∧
            128 ≤ 128 + n % 64 ∧ 128 + n % 64 < 192 := by omega
        simp [utf8Step, c1, c2, c3, c4]
        omega
      · refine ⟨240 + n / 262144,
          (128 + n / 4096 % 64) :: (128 + n / 64 % 64) :: (128 + n % 64) :: rest,
          by simp [utf8EncodeChar, h1, h2, h3], ?_⟩
        have c1 : ¬(240 + n / 262144 < 128) := by omega
        have c2 : ¬(194 ≤ 240 + n / 262144 ∧ 240 + n / 262144 < 224) := by omega
        have c3 : ¬(224 ≤ 240 + n / 262144 ∧ 240 + n / 262144 < 240) := by omega
        have c4 : 240 ≤ 240 + n / 262144 ∧ 240 + n / 262144 < 245 := by omega
        have c5 : (128 ≤ 128 + n / 4096 % 64 ∧ 128 + n / 4096 % 64 < 192) ∧
            (128 ≤ 128 + n / 64 % 64 ∧ 128 + n / 64 % 64 < 192) ∧
            128 ≤ 128 + n % 64 ∧ 128 + n % 64 < 192 := by omega
        simp [utf8Step, c1, c2, c3, c4, c5]
        omega

theorem utf8EncodeChar_ne_nil (n : Nat) : utf8EncodeChar n ≠ [] := by
  unfold utf8EncodeChar
  split_ifs <;> simp

/-- With enough fuel, decoding inverts encoding. -/
theorem utf8DecodeFuel_encode :
    ∀ (s : List Nat) (fuel : Nat), (∀ n ∈ s, n < 1114112) →
      (utf8Encode s).length ≤ fuel →
      utf8DecodeFuel fuel (utf8Encode s) = some s
  | [], fuel, _, _ => by cases fuel <;> rfl
  | n :: s', fuel, h, hfuel => by
      obtain ⟨b, tail, heq, hstep⟩ :=
        utf8Step_encodeChar n (h n (by simp)) (utf8Encode s')
      rw [utf8Encode, heq] at hfuel ⊢
      cases fuel with
      | zero => exact absurd hfuel (by simp)
      | succ f =>
          have hlenc := congrArg List.length heq
          have hpos : 0 < (utf8EncodeChar n).length :=
            List.length_pos.mpr (utf8EncodeChar_ne_nil n)
          simp only [List.length_append, List.length_cons] at hlenc hfuel
          have hlen : (utf8Encode s').length ≤ f := by omega
          have ih := utf8DecodeFuel_encode s' f (fun m hm => h m (by simp [hm])) hlen
          rw [utf8DecodeFuel, hstep]
          simp [ih]

/-- UTF-8 decoding inverts UTF-8 encoding on sequences of code points. -/
theorem utf8Decode_utf8Encode (s : List Nat) (h : ∀ n ∈ s, n < 1114112) :
    utf8Decode (utf8Encode s) = some s :=
  utf8DecodeFuel_encode s (utf8Encode s).length h le_rfl

/-! ## Structural helper lemmas -/

theorem allDeterministic_iff (cs : List PyCoder) :
    PyCoder.is_deterministic.allDeterministic cs = true ↔
      ∀ d ∈ cs, d.is_deterministic = true := by
  induction cs with
  | nil => simp [PyCoder.is_deterministic.allDeterministic]
  | cons c rest ih =>
      simp [PyCoder.is_deterministic.allDeterministic, ih]

theorem className_no_dollar (c : PyCoder) : '$' ∉ c.className := by
  cases c <;> simp only [PyCoder.className] <;> decide

theorem afterFirst_append (a b : List Char) (h : '$' ∉ a) :
    afterFirst '$' (a ++ '$' :: b) = some b := by
  induction a with
  | nil => simp [afterFirst]
  | cons x xs ih =>
      have hx : ¬(x = '$') := fun e => h (by simp [e])
      simp only [List.cons_append, afterFirst, if_neg hx]
      exact ih fun hm => h (by simp [hm])

theorem afterFirst_eq_none (s : List Char) (h : '$' ∉ s) :
    afterFirst '$' s = none := by
  induction s with
  | nil => rfl
  | cons x xs ih =>
      have hx : ¬(x = '$') := fun e => h (by simp [e])
      simp only [afterFirst, if_neg hx]
      exact ih fun hm => h (by simp [hm])

/-! ## The claims -/

open PyCoder

/-- C1: for every coder `c` and value `v` in its supported domain,
`c.decode(c.encode(v)) == v`; in particular for the direct coders
`StrUtf8Coder` (on unicode strings, i.e. sequences of code points) and
`Base64PickleCoder` (on any value, assuming the object-serialization
capability round-trips). -/
theorem claim_C1_round_trip {α : Type} (s : List Nat)
    (hs : ∀ n ∈ s, n < 1114112)
    (dumps : α → List Nat) (loads : List Nat → Option α)
    (hbytes : ∀ v : α, ∀ b ∈ dumps v, b < 256)
    (hrt : ∀ v : α, loads (dumps v) = some v) (v : α) :
    StrUtf8Coder.decode (StrUtf8Coder.encode s) = some s ∧
    Base64PickleCoder.decode loads (Base64PickleCoder.encode dumps v) = some v := by
  constructor
  · exact utf8Decode_utf8Encode s hs
  · unfold Base64PickleCoder.decode Base64PickleCoder.encode
    rw [b64decode_b64encode (dumps v) (hbytes v)]
    simp [hrt v]

theorem claim_C1_witness :
    StrUtf8Coder.decode (StrUtf8Coder.encode [72, 105, 233]) =
      some [72, 105, 233] ∧
    Base64PickleCoder.decode (fun l => if l = [42] then some () else none)
      (Base64PickleCoder.encode (fun _ => [42]) ()) = some () :=
  claim_C1_round_trip [72, 105, 233] (by decide)
    (fun _ => [42]) (fun l => if l = [42] then some () else none)
    (fun _ b hb => by simp at hb; omega)
    (fun v => by cases v; rfl) ()

/-- C2: a tuple, homogeneous-sequence, iterable, or windowed-value coder
reports `is_deterministic() == true` iff all of its component coders do;
in particular one non-deterministic component makes it report false. -/
theorem claim_C2_composite_determinism (c : PyCoder)
    (h : c.isCompositeCoder = true) :
    c.is_deterministic = true ↔
      ∀ d ∈ c.componentCoders, d.is_deterministic = true := by
  cases c <;> simp [isCompositeCoder] at h
  case tupleC cs =>
    simp only [is_deterministic, componentCoders]
    exact allDeterministic_iff cs
  case tupleSequence e => simp [is_deterministic, componentCoders]
  case iterableC e => simp [is_deterministic, componentCoders]
  case windowedValue w win => simp [is_deterministic, componentCoders]

theorem claim_C2_witness :
    (tupleC [varInt, pickleC]).isCompositeCoder = true ∧
    ((tupleC [varInt, pickleC]).is_deterministic = true ↔
      ∀ d ∈ (tupleC [varInt, pickleC]).componentCoders,
        d.is_deterministic = true) :=
  ⟨rfl, claim_C2_composite_determinism (tupleC [varInt, pickleC]) rfl⟩

/-- C3 (code bug): `TupleCoder.__eq__` compares `self._coders` with
itself instead of with `other._coders`, so two `TupleCoder`s with
structurally different components compare equal while their hashes
differ — against the documented structural-equality/hash-consistency
contract.  Evaluated at the failing input
`TupleCoder([VarIntCoder()])` vs `TupleCoder([BytesCoder()])`. -/
theorem claim_C3_tuple_eq_slip :
    coderEq (tupleC [varInt]) (tupleC [bytesC]) = true ∧
    tupleC [varInt] ≠ tupleC [bytesC] ∧
    coderHash (tupleC [varInt]) ≠ coderHash (tupleC [bytesC]) := by
  refine ⟨rfl, by simp, ?_⟩
  simp [coderHash, coderHash.hashList, typeTag, combineHashes]

/-- C4: a `TupleCoder` of exactly two components is a KV coder exposing
them as key and value; any other arity is not a KV coder and both
accessors raise. -/
theorem claim_C4_tuple_kv (k v : PyCoder) (cs : List PyCoder)
    (h : cs.length ≠ 2) :
    ((tupleC [k, v]).is_kv_coder = true ∧
      (tupleC [k, v]).key_coder = .ok k ∧
      (tupleC [k, v]).value_coder = .ok v) ∧
    ((tupleC cs).is_kv_coder = false ∧
      (tupleC cs).key_coder = .error .wrongArity ∧
      (tupleC cs).value_coder = .error .wrongArity) := by
  refine ⟨⟨rfl, ?_, ?_⟩, ?_, ?_, ?_⟩
  · simp [key_coder]
  · simp [value_coder]
  · simp [is_kv_coder, h]
  · simp [key_coder, h]
  · simp [value_coder, h]

theorem claim_C4_witness :
    ((tupleC [varInt, bytesC]).is_kv_coder = true ∧
      (tupleC [varInt, bytesC]).key_coder = .ok varInt ∧
      (tupleC [varInt, bytesC]).value_coder = .ok bytesC) ∧
    ((tupleC [varInt, bytesC, floatC]).is_kv_coder = false ∧
      (tupleC [varInt, bytesC, floatC]).key_coder = .error .wrongArity ∧
      (tupleC [varInt, bytesC, floatC]).value_coder = .error .wrongArity) :=
  claim_C4_tuple_kv varInt bytesC [varInt, bytesC, floatC] (by decide)

/-- C5: `deserialize_coder(serialize_coder(c)) == c` whenever the
object-serialization capability round-trips `c`; the description has the
shape `<kind>$<blob>` and the kind name contains no `'$'`. -/
theorem claim_C5_interchange_round_trip (dumps : PyCoder → List Char)
    (loads : List Char → Option PyCoder) (c : PyCoder)
    (hrt : loads (dumps c) = some c) :
    deserialize_coder loads (serialize_coder dumps c) = .ok c := by
  unfold serialize_coder deserialize_coder
  rw [afterFirst_append _ _ (className_no_dollar c)]
  simp [hrt]

theorem claim_C5_witness :
    deserialize_coder (fun _ => some varInt)
      (serialize_coder (fun _ => []) varInt) = .ok varInt :=
  claim_C5_interchange_round_trip (fun _ => []) (fun _ => some varInt)
    varInt rfl

/-- C6 (counterexample): three coders whose `is_kv_coder()` is true but
whose `as_cloud_object` projection does not set `is_pair_like`:
`DeterministicFastPrimitivesCoder`, `Base64PickleCoder` (both also
supply no component encodings), and a `WindowedValueCoder` wrapping a KV
tuple coder. -/
theorem claim_C6_counterexample :
    ((deterministicFastPrimitives varInt []).is_kv_coder = true ∧
      (as_cloud_object (fun _ => [])
        (deterministicFastPrimitives varInt [])).is_pair_like = false ∧
      (as_cloud_object (fun _ => [])
        (deterministicFastPrimitives varInt [])).component_encodings.length
        = 0) ∧
    (base64Pickle.is_kv_coder = true ∧
      (as_cloud_object (fun _ => []) base64Pickle).is_pair_like = false) ∧
    ((windowedValue (tupleC [varInt, bytesC]) pickleC).is_kv_coder = true ∧
      (as_cloud_object (fun _ => [])
        (windowedValue (tupleC [varInt, bytesC]) pickleC)).is_pair_like
        = false) := by
  refine ⟨⟨rfl, ?_, ?_⟩, ⟨rfl, ?_⟩, ⟨rfl, ?_⟩⟩ <;>
    simp [as_cloud_object]

/-- C6 (amended): the pair-shape convention does hold for the KV kinds
that override the projection — a two-component `TupleCoder`,
`PickleCoder`, `DillCoder` and `FastPrimitivesCoder` all set
`is_pair_like` and supply exactly two component schemas. -/
theorem claim_C6_amended (dumps : PyCoder → List Char) (k v fb : PyCoder) :
    ((as_cloud_object dumps (tupleC [k, v])).is_pair_like = true ∧
      (as_cloud_object dumps (tupleC [k, v])).component_encodings.length = 2) ∧
    ((as_cloud_object dumps pickleC).is_pair_like = true ∧
      (as_cloud_object dumps pickleC).component_encodings.length = 2) ∧
    ((as_cloud_object dumps dillC).is_pair_like = true ∧
      (as_cloud_object dumps dillC).component_encodings.length = 2) ∧
    ((as_cloud_object dumps (fastPrimitives fb)).is_pair_like = true ∧
      (as_cloud_object dumps (fastPrimitives fb)).component_encodings.length
        = 2) := by
  simp [as_cloud_object, as_cloud_object.cloudList]

/-- C7 (counterexample): a description naming an unknown coder kind is
accepted — the kind before `'$'` is never inspected, so with a pickler
that loads the blob, `deserialize_coder` succeeds. -/
theorem claim_C7_counterexample :
    deserialize_coder (fun _ => some varInt)
      ("UnknownCoderKind$blob".toList) = .ok varInt := by
  rfl

/-- C7 (amended): `deserialize_coder` ignores the kind tag — its result
on `<kind>$<blob>` depends only on what the pickler does with the blob
(pickler error on a corrupt blob), and it raises an index error (not a
dedicated deserialize error) exactly when the separator `'$'` is
missing. -/
theorem claim_C7_amended (loads : List Char → Option PyCoder)
    (kind blob s : List Char) (hkind : '$' ∉ kind) (hs : '$' ∉ s) :
    deserialize_coder loads (kind ++ '$' :: blob) =
      (match loads blob with
       | some c => .ok c
       | none => .error .picklerError) ∧
    deserialize_coder loads s = .error .indexError := by
  constructor
  · unfold deserialize_coder
    rw [afterFirst_append _ _ hkind]
    cases hl : loads blob <;> simp [hl]
  · unfold deserialize_coder
    rw [afterFirst_eq_none s hs]

theorem claim_C7_amended_witness :
    deserialize_coder (fun _ => none) ("K".toList ++ '$' :: []) =
      .error .picklerError ∧
    deserialize_coder (fun _ => none) "noseparator".toList =
      .error .indexError :=
  claim_C7_amended (fun _ => none) "K".toList [] "noseparator".toList
    (by decide) (by decide)

/-- C8: the general-object (pickle-backed) coders report
`is_deterministic() == false` and `is_kv_coder() == true`, with
`key_coder()` and `value_coder()` returning the coder itself. -/
theorem claim_C8_pickle_coder :
    pickleC.is_deterministic = false ∧ pickleC.is_kv_coder = true ∧
    pickleC.key_coder = .ok pickleC ∧ pickleC.value_coder = .ok pickleC ∧
    dillC.is_deterministic = false ∧ dillC.is_kv_coder = true ∧
    dillC.key_coder = .ok dillC ∧ dillC.value_coder = .ok dillC := by
  refine ⟨?_, rfl, rfl, rfl, ?_, rfl, rfl, rfl⟩ <;> simp [is_deterministic]

/-- C9: `LengthPrefixCoder(inner).estimate_size(v)` equals
`varint_size(inner.estimate_size(v)) + inner.estimate_size(v)`,
computed from the inner size estimate alone. -/
theorem claim_C9_length_prefix_estimate {α : Type}
    (impl : PyCoder → α → Nat) (inner : PyCoder) (v : α) :
    estimate_size impl (lengthPrefixed inner) v =
      get_varint_size (estimate_size impl inner v) +
        estimate_size impl inner v := by
  simp [estimate_size]

/-- C10: `DeterministicFastPrimitivesCoder(u, s)` reports itself as a KV
coder whose key and value coders are the wrapper itself (which is never
the underlying coder `u`), for every `u` and `s`. -/
theorem claim_C10_dfp_kv (u : PyCoder) (s : List Nat) :
    (deterministicFastPrimitives u s).is_kv_coder = true ∧
    (deterministicFastPrimitives u s).key_coder =
      .ok (deterministicFastPrimitives u s) ∧
    (deterministicFastPrimitives u s).value_coder =
      .ok (deterministicFastPrimitives u s) ∧
    deterministicFastPrimitives u s ≠ u := by
  refine ⟨rfl, rfl, rfl, ?_⟩
  intro h
  have hs := congrArg sizeOf h
  simp at hs
  omega
